import Mathlib

/-!
Shallow embedding of the DNS-Relay.go codec and relay logic (main.go).

Bytes are modelled as `Nat` (values < 256 where the wire format is concerned),
byte buffers as `List Nat`. Go's unchecked slice indexing panics at runtime and
kills the process; every such access is modelled through `byteAt`, which returns
`none` exactly when Go would panic with an index-out-of-range error. Functions
that can hit such a panic therefore return `Option`: `none` marks the runtime
panic, not an error value returned by the program (the Go source returns no
error values from its codec functions).
-/

/-- DNS message header, mirroring struct `DNSMsgHdr` (six 16-bit fields). -/
structure DNSMsgHdr where
  ID : Nat
  FLAGS : Nat
  QDCOUNT : Nat
  ANCOUNT : Nat
  NSCOUNT : Nat
  ARCOUNT : Nat
deriving DecidableEq, Repr

/-- Unpacked header flags, mirroring struct `DNSMsgFlags`. -/
structure DNSMsgFlags where
  QR : Nat
  Opcode : Nat
  AA : Nat
  TC : Nat
  RD : Nat
  RA : Nat
  Z : Nat
  AD : Nat
  CD : Nat
  RCODE : Nat
deriving DecidableEq, Repr

/-- DNS question section, mirroring struct `DNSMsgQst`. -/
structure DNSMsgQst where
  QNAME : List Nat
  QTYPE : Nat
  QCLASS : Nat
deriving DecidableEq, Repr

/-- DNS resource record, mirroring struct `DNSMsgRR`. -/
structure DNSMsgRR where
  NAME : List Nat
  TYPE : Nat
  CLASS : Nat
  TTL : Nat
  RDLENGTH : Nat
  RDATA : List Nat
deriving DecidableEq, Repr

/-- Go slice indexing `msg[i]`: `none` models the runtime panic on an
out-of-range index. -/
def byteAt : List Nat → Nat → Option Nat
  | [], _ => none
  | b :: _, 0 => some b
  | _ :: rest, i + 1 => byteAt rest i

/-- `binary.BigEndian.Uint16(msg[i:i+2])`; `none` models the panic when the
slice has fewer than `i+2` elements. -/
def getBeUint16 (msg : List Nat) (i : Nat) : Option Nat :=
  match byteAt msg i, byteAt msg (i + 1) with
  | some b0, some b1 => some (b0 * 256 + b1)
  | _, _ => none

/-- `binary.BigEndian.PutUint16` of a `uint16` value. -/
def putUint16 (v : Nat) : List Nat :=
  [v / 256 % 256, v % 256]

/-- `binary.BigEndian.PutUint32` of a `uint32` value. -/
def putUint32 (v : Nat) : List Nat :=
  [v / 16777216 % 256, v / 65536 % 256, v / 256 % 256, v % 256]

/-- Method `(msg DNSMsgHdr) parseFlags()`: pure mask-and-shift extraction of
the ten flag sub-fields from the 16-bit FLAGS word. -/
def parseFlags (msg : DNSMsgHdr) : DNSMsgFlags :=
  { QR := (msg.FLAGS &&& 0b1000000000000000) >>> 15
  , Opcode := (msg.FLAGS &&& 0b0111100000000000) >>> 11
  , AA := (msg.FLAGS &&& 0b0000010000000000) >>> 10
  , TC := (msg.FLAGS &&& 0b0000001000000000) >>> 9
  , RD := (msg.FLAGS &&& 0b0000000100000000) >>> 8
  , RA := (msg.FLAGS &&& 0b0000000010000000) >>> 7
  , Z := (msg.FLAGS &&& 0b0000000001000000) >>> 6
  , AD := (msg.FLAGS &&& 0b0000000000100000) >>> 5
  , CD := (msg.FLAGS &&& 0b0000000000010000) >>> 4
  , RCODE := msg.FLAGS &&& 0b0000000000001111 }

/-- `parseDNSHdr(msg []byte)`: six big-endian 16-bit reads at fixed offsets.
The Go function performs unchecked slicing; `none` models the resulting
runtime panic when fewer than 12 bytes are available. -/
def parseDNSHdr (msg : List Nat) : Option DNSMsgHdr :=
  match getBeUint16 msg 0, getBeUint16 msg 2, getBeUint16 msg 4,
        getBeUint16 msg 6, getBeUint16 msg 8, getBeUint16 msg 10 with
  | some id, some flags, some qd, some an, some ns, some ar =>
    some ⟨id, flags, qd, an, ns, ar⟩
  | _, _, _, _, _, _ => none

/-- Index of the first zero byte, mirroring the scan
`i := 0; for msg[i] != 0 { i = i + 1 }`; `none` models the panic when the
scan runs off the end of the buffer. -/
def findZero : List Nat → Option Nat
  | [] => none
  | b :: rest => if b = 0 then some 0 else (findZero rest).map (· + 1)

/-- `parseDNSQst(msg []byte)`: scans to the zero terminator at index `i`,
takes `msg[0:i+1]` as QNAME, reads QTYPE and QCLASS as the next two
big-endian 16-bit words, and returns length `uint16(i+5)`. -/
def parseDNSQst (msg : List Nat) : Option (DNSMsgQst × Nat) :=
  match findZero msg with
  | none => none
  | some i =>
    match getBeUint16 msg (i + 1), getBeUint16 msg (i + 3) with
    | some qtype, some qclass =>
      some (⟨msg.take (i + 1), qtype, qclass⟩, (i + 5) % 65536)
    | _, _ => none

/-- `parseDNSRequest(msg []byte)`: header from `msg[0:12]`, question from
`msg[12:]`, total length `uint16(qstLen + 12)`. -/
def parseDNSRequest (msg : List Nat) : Option (DNSMsgHdr × DNSMsgQst × Nat) :=
  match parseDNSHdr (msg.take 12), parseDNSQst (msg.drop 12) with
  | some hdr, some (qst, qstLen) => some (hdr, qst, (qstLen + 12) % 65536)
  | _, _ => none

/-- The inner loop `for j := 0; j < domainLen; j++` of `parseDomainName`:
reads `count` bytes starting at index `i`; `none` models the panic when an
index falls outside the QNAME slice. -/
def labelBytes (qname : List Nat) : Nat → Nat → Option (List Nat)
  | _, 0 => some []
  | i, n + 1 =>
    match byteAt qname i with
    | none => none
    | some b =>
      match labelBytes qname (i + 1) n with
      | none => none
      | some rest => some (b :: rest)

/-- The outer loop of `parseDomainName`: at index `i`, stop on a zero length
octet, otherwise read the label and a `'.'` separator (byte 46) and advance
past it. The fuel argument only bounds the recursion: the loop advances `i`
by at least one per iteration and panics (`none`) as soon as `i` leaves the
buffer, so a fuel of `qname.length + 1` is never exhausted before the Go
loop itself would have terminated or panicked. -/
def parseDomainNameLoop (qname : List Nat) : Nat → Nat → Option (List Nat)
  | _, 0 => none
  | i, fuel + 1 =>
    match byteAt qname i with
    | none => none
    | some b =>
      if b = 0 then some []
      else
        match labelBytes qname (i + 1) b with
        | none => none
        | some lbl =>
          match parseDomainNameLoop qname (i + 1 + b) fuel with
          | none => none
          | some rest => some (lbl ++ 46 :: rest)

/-- `strings.Trim(s, ".")`: removes leading and trailing dot bytes (46). -/
def trimDots (s : List Nat) : List Nat :=
  ((s.dropWhile (· == 46)).reverse.dropWhile (· == 46)).reverse

/-- Method `(qst DNSMsgQst) parseDomainName()`: joins the labels of QNAME
with dots and trims the trailing separator; `none` models the runtime panic
on a malformed QNAME (label overrunning the slice or missing terminator). -/
def parseDomainName (qst : DNSMsgQst) : Option String :=
  match parseDomainNameLoop qst.QNAME 0 (qst.QNAME.length + 1) with
  | none => none
  | some bs => some (String.mk ((trimDots bs).map Char.ofNat))

/-- `strings.Split` on `"."`, over the character list. -/
def splitDotsAux : List Char → List Char → List (List Char)
  | [], acc => [acc.reverse]
  | c :: rest, acc =>
    if c = '.' then acc.reverse :: splitDotsAux rest []
    else splitDotsAux rest (c :: acc)

/-- `strings.Split(s, ".")`. -/
def splitDots (s : String) : List String :=
  (splitDotsAux s.data []).map String.mk

/-- Models `byte(I)` where `I, _ = strconv.ParseInt(octet, 10, 9)` with the
error discarded, for unsigned decimal strings: a parse failure (empty string
or non-digit character) leaves `I = 0`, a range overflow clamps to the 9-bit
maximum 255, and the byte cast keeps values ≤ 255 unchanged. Sign-prefixed
strings are not modelled (no call site produces them). -/
def parseIntByte (s : String) : Nat :=
  if !s.data.isEmpty && s.data.all Char.isDigit then
    min (s.data.foldl (fun a c => a * 10 + (c.toNat - 48)) 0) 255
  else 0

/-- `createDNSMsgAsr`: fixed compression pointer 0xC0,0x0C as NAME, the
given type/class/TTL/RDLENGTH, and RDATA built by splitting the address
string on dots and appending one byte per piece — with no validation of the
piece count or of parse errors. -/
def createDNSMsgAsr (asrType asrClass asrTTL asrRDLength : Nat)
    (asrRData : String) : DNSMsgRR :=
  { NAME := [0xc0, 0x0c]
  , TYPE := asrType
  , CLASS := asrClass
  , TTL := asrTTL
  , RDLENGTH := asrRDLength
  , RDATA := (splitDots asrRData).map parseIntByte }

/-- `composeHdrQst`: six big-endian 16-bit header fields, then QNAME, QTYPE,
QCLASS. -/
def composeHdrQst (hdr : DNSMsgHdr) (qst : DNSMsgQst) : List Nat :=
  putUint16 hdr.ID ++ putUint16 hdr.FLAGS ++ putUint16 hdr.QDCOUNT ++
  putUint16 hdr.ANCOUNT ++ putUint16 hdr.NSCOUNT ++ putUint16 hdr.ARCOUNT ++
  qst.QNAME ++ putUint16 qst.QTYPE ++ putUint16 qst.QCLASS

/-- `composeHdrQstAsr`: header+question, then the record's NAME, TYPE,
CLASS, TTL, RDLENGTH, RDATA. -/
def composeHdrQstAsr (hdr : DNSMsgHdr) (qst : DNSMsgQst) (asr : DNSMsgRR) :
    List Nat :=
  composeHdrQst hdr qst ++ asr.NAME ++ putUint16 asr.TYPE ++
  putUint16 asr.CLASS ++ putUint32 asr.TTL ++ putUint16 asr.RDLENGTH ++
  asr.RDATA

/-- `composeHdrQstMultiRR`: header+question followed by a raw byte span. -/
def composeHdrQstMultiRR (hdr : DNSMsgHdr) (qst : DNSMsgQst) (rr : List Nat) :
    List Nat :=
  composeHdrQst hdr qst ++ rr

/-- `getIPAddrByDomainName`: reverse scan of the hosts table for the entry
whose domain name equals the query; first match wins (the Go map iteration
order is unspecified, a list fixes one order). `none` models the
`("", error)` not-found return. -/
def getIPAddrByDomainName : List (String × String) → String → Option String
  | [], _ => none
  | (ip, domainName) :: rest, target =>
    if domainName = target then some ip
    else getIPAddrByDomainName rest target

/-- A UDP read into a fresh zero buffer of `bufSize` bytes: the datagram
fills a prefix and the rest of the buffer stays zero (the Go code ignores
the returned byte count and uses the whole buffer). -/
def udpRead (bufSize : Nat) (datagram : List Nat) : List Nat :=
  datagram.take bufSize ++ List.replicate (bufSize - datagram.length) 0

/-- `communicateWithForwardDNS`: increments the transaction ID (uint16, so
mod 2^16), re-encodes header+question, sends it, and reads the reply into a
256-byte buffer. Returns the pair (bytes sent upstream, 256-byte read
buffer); the network exchange itself is replaced by the `upstreamReply`
datagram argument. -/
def communicateWithForwardDNS (hdr : DNSMsgHdr) (qst : DNSMsgQst)
    (upstreamReply : List Nat) : List Nat × List Nat :=
  (composeHdrQst ⟨(hdr.ID + 1) % 65536, hdr.FLAGS, hdr.QDCOUNT, hdr.ANCOUNT,
     hdr.NSCOUNT, hdr.ARCOUNT⟩ qst,
   udpRead 256 upstreamReply)

/-- Outcome of one iteration of the `DNSRelay` loop. `panicked` marks a Go
runtime panic (out-of-range access) that crashes the process; `respond` is
the datagram written back to the client; `forwarded` carries both the
datagram sent upstream and the final datagram written back to the client. -/
inductive RelayOutput where
  | panicked : RelayOutput
  | respond : List Nat → RelayOutput
  | forwarded : List Nat → List Nat → RelayOutput
deriving DecidableEq, Repr

/-- One iteration of the `DNSRelay` loop: read the query into a 512-byte
buffer, parse header+question, extract the domain name, look it up in the
hosts table, then take the forward path (no match), the negative-answer path
(match on 127.0.0.1 or 0.0.0.0, flags forced to 0x8183), or the local-answer
path (flags forced to 0x8180, answer built by `createDNSMsgAsr 1 1 31 4`).
On the forward path the reply is re-parsed, its ID decremented (uint16, so
mod 2^16), and the bytes after its question section are spliced on. -/
def DNSRelayStep (hosts : List (String × String))
    (query upstreamReply : List Nat) : RelayOutput :=
  let buf := udpRead 512 query
  match parseDNSRequest buf with
  | none => RelayOutput.panicked
  | some (dnsMsgHdr, dnsMsgQst, _) =>
    match parseDomainName dnsMsgQst with
    | none => RelayOutput.panicked
    | some targetDomainName =>
      let targetIP := (getIPAddrByDomainName hosts targetDomainName).getD ""
      if targetIP = "" then
        let sentRecv := communicateWithForwardDNS dnsMsgHdr dnsMsgQst upstreamReply
        match parseDNSRequest sentRecv.2 with
        | none => RelayOutput.panicked
        | some (hdr, qst, length) =>
          RelayOutput.forwarded sentRecv.1
            (composeHdrQstMultiRR
              ⟨(hdr.ID + 65535) % 65536, hdr.FLAGS, hdr.QDCOUNT, hdr.ANCOUNT,
               hdr.NSCOUNT, hdr.ARCOUNT⟩
              qst (sentRecv.2.drop length))
      else if targetIP = "127.0.0.1" ∨ targetIP = "0.0.0.0" then
        RelayOutput.respond
          (composeHdrQst
            ⟨dnsMsgHdr.ID, 0x8183, dnsMsgHdr.QDCOUNT, dnsMsgHdr.ANCOUNT,
             dnsMsgHdr.NSCOUNT, dnsMsgHdr.ARCOUNT⟩
            dnsMsgQst)
      else
        RelayOutput.respond
          (composeHdrQstAsr
            ⟨dnsMsgHdr.ID, 0x8180, dnsMsgHdr.QDCOUNT, dnsMsgHdr.ANCOUNT,
             dnsMsgHdr.NSCOUNT, dnsMsgHdr.ARCOUNT⟩
            dnsMsgQst (createDNSMsgAsr 1 1 31 4 targetIP))

/-- Projection on a relay outcome: the datagram written back to the client
on a direct-response path. -/
def respondBytes : RelayOutput → Option (List Nat)
  | RelayOutput.respond resp => some resp
  | _ => none

/-- Projection on a relay outcome: the final datagram written back to the
client on the forward path. -/
def forwardedResp : RelayOutput → Option (List Nat)
  | RelayOutput.forwarded _ resp => some resp
  | _ => none

/-- Projection on a relay outcome: the datagram sent upstream on the
forward path. -/
def forwardedSent : RelayOutput → Option (List Nat)
  | RelayOutput.forwarded sent _ => some sent
  | _ => none

/-- The example request from the repository's tests: header
6a ec 81 80 00 01 00 01 00 00 00 00, the google.com name bytes, then
00 00 00 01 as the last four question bytes. -/
def exampleRequest : List Nat :=
  [0x6a, 0xec, 0x81, 0x80, 0x00, 0x01, 0x00, 0x01, 0x00, 0x00, 0x00, 0x00,
   0x06, 0x67, 0x6f, 0x6f, 0x67, 0x6c, 0x65, 0x03, 0x63, 0x6f, 0x6d, 0x00,
   0x00, 0x00, 0x00, 0x01]

/-- On-wire name for www.ljg.top: 03 www 03 ljg 03 top 00. -/
def ljgName : List Nat :=
  [3, 119, 119, 119, 3, 108, 106, 103, 3, 116, 111, 112, 0]

/-- A type-A, class-IN query for www.ljg.top with transaction ID 0x1234. -/
def ljgQuery : List Nat :=
  [0x12, 0x34, 0x01, 0x00, 0, 1, 0, 0, 0, 0, 0, 0] ++ ljgName ++ [0, 1, 0, 1]

/-- The same query with QTYPE 28 (AAAA) instead of 1. -/
def ljgQuery28 : List Nat :=
  [0x12, 0x34, 0x01, 0x00, 0, 1, 0, 0, 0, 0, 0, 0] ++ ljgName ++ [0, 28, 0, 1]

/-- On-wire name for blocked.example: 07 blocked 07 example 00. -/
def blockedName : List Nat :=
  [7, 98, 108, 111, 99, 107, 101, 100, 7, 101, 120, 97, 109, 112, 108, 101, 0]

/-- A type-A, class-IN query for blocked.example with transaction ID 0xabcd. -/
def blockedQuery : List Nat :=
  [0xab, 0xcd, 0x01, 0x00, 0, 1, 0, 0, 0, 0, 0, 0] ++ blockedName ++ [0, 1, 0, 1]

/-- Claim C9: decoding the 16-bit flags word 0x8180 yields exactly
isResponse (QR) = 1, opcode = 0, authoritative = 0, truncated = 0,
recursionDesired = 1, recursionAvailable = 1, reserved = 0,
authenticData = 0, checkingDisabled = 0, responseCode = 0. -/
theorem parseFlagsExample8180 :
    parseFlags ⟨0, 0x8180, 0, 0, 0, 0⟩ = ⟨1, 0, 0, 0, 1, 1, 0, 0, 0, 0⟩ := by
  decide

/-- Claim C5 (code bug): `createDNSMsgAsr` performs no address validation.
On "1.2.3" it returns a 3-byte RDATA and on "1.2.3.4.5" a 5-byte RDATA,
instead of failing with an InvalidAddress error (no error value exists in
the code; the ParseInt error is discarded). -/
theorem createDNSMsgAsrNoInvalidAddressCheck :
    (createDNSMsgAsr 1 1 31 4 "1.2.3").RDATA = [1, 2, 3] ∧
    (createDNSMsgAsr 1 1 31 4 "1.2.3.4.5").RDATA = [1, 2, 3, 4, 5] := by
  decide

/-- Claim C6 (code bug): on an 11-byte input, `parseDNSHdr` hits an
out-of-range slice access (a runtime panic, modelled by `none`) instead of
returning an explicit TruncatedMessage error — no error value exists in the
code. -/
theorem parseDNSHdrShortInputOutOfBounds :
    (exampleRequest.take 11).length = 11 ∧
    parseDNSHdr (exampleRequest.take 11) = none := by
  decide

/-- Claim C7 (code bug): on a QNAME whose label length octet overruns the
buffer ([3, 97, 0]) and on a QNAME with no zero terminator ([1, 97]),
`parseDomainName` hits an out-of-range index (a runtime panic, modelled by
`none`) instead of returning a MalformedName error — no error value exists
in the code. -/
theorem parseDomainNameOutOfBounds :
    parseDomainName ⟨[0x03, 0x61, 0x00], 1, 1⟩ = none ∧
    parseDomainName ⟨[0x01, 0x61], 1, 1⟩ = none := by
  decide

/-- Claim C10: the forward-path transaction-ID arithmetic is 16-bit modular.
Forwarding a request whose header ID is 0xFFFF sends upstream an ID of
0x0000, and a reply whose ID is 0x0000 is delivered to the client with ID
0xFFFF. -/
theorem forwardIdWrapsMod65536 :
    (communicateWithForwardDNS ⟨0xFFFF, 0x0100, 1, 0, 0, 0⟩ ⟨[0], 1, 1⟩ []).1.take 2
      = [0x00, 0x00] ∧
    (forwardedResp
        (DNSRelayStep [] exampleRequest ([0x00, 0x00] ++ exampleRequest.drop 2))).map
        (fun l => l.take 2)
      = some [0xFF, 0xFF] := by
  decide

/-- Claim C4: for every well-formed 12-byte input (each byte < 256),
composing the header parsed by `parseDNSHdr` reproduces the input exactly —
the composed message (for any question) starts with exactly those 12 bytes,
every field round-tripping bit-for-bit. -/
theorem composeHdrQstParseDNSHdrRoundtrip (b : List Nat) (hdr : DNSMsgHdr)
    (qst : DNSMsgQst) (hlen : b.length = 12) (hb : ∀ x ∈ b, x < 256)
    (hparse : parseDNSHdr b = some hdr) :
    composeHdrQst hdr qst =
      b ++ qst.QNAME ++ putUint16 qst.QTYPE ++ putUint16 qst.QCLASS := by
  match b, hlen with
  | [b0, b1, b2, b3, b4, b5, b6, b7, b8, b9, b10, b11], _ =>
    have h0 : b0 < 256 := hb _ (by simp)
    have h1 : b1 < 256 := hb _ (by simp)
    have h2 : b2 < 256 := hb _ (by simp)
    have h3 : b3 < 256 := hb _ (by simp)
    have h4 : b4 < 256 := hb _ (by simp)
    have h5 : b5 < 256 := hb _ (by simp)
    have h6 : b6 < 256 := hb _ (by simp)
    have h7 : b7 < 256 := hb _ (by simp)
    have h8 : b8 < 256 := hb _ (by simp)
    have h9 : b9 < 256 := hb _ (by simp)
    have h10 : b10 < 256 := hb _ (by simp)
    have h11 : b11 < 256 := hb _ (by simp)
    have hp : parseDNSHdr [b0, b1, b2, b3, b4, b5, b6, b7, b8, b9, b10, b11] =
        some ⟨b0 * 256 + b1, b2 * 256 + b3, b4 * 256 + b5, b6 * 256 + b7,
              b8 * 256 + b9, b10 * 256 + b11⟩ := rfl
    rw [hp] at hparse
    have hh := Option.some.inj hparse
    subst hh
    simp only [composeHdrQst, putUint16, List.cons_append, List.nil_append,
      List.cons.injEq, List.append_assoc]
    refine ⟨by omega, by omega, by omega, by omega, by omega, by omega,
      by omega, by omega, by omega, by omega, by omega, by omega, trivial⟩

/-- Witness for claim C4: the round-trip applied to the example header bytes
6a ec 81 80 00 01 00 01 00 00 00 00. -/
theorem composeHdrQstParseDNSHdrRoundtripWitness :
    composeHdrQst ⟨0x6aec, 0x8180, 1, 1, 0, 0⟩ ⟨[0], 1, 1⟩ =
      exampleRequest.take 12 ++ [0] ++ putUint16 1 ++ putUint16 1 :=
  composeHdrQstParseDNSHdrRoundtrip (exampleRequest.take 12)
    ⟨0x6aec, 0x8180, 1, 1, 0, 0⟩ ⟨[0], 1, 1⟩ (by decide) (by decide) (by decide)

/-- The zero-scan index returned by `findZero` is a valid index. -/
theorem findZero_lt_length : ∀ (l : List Nat) (i : Nat),
    findZero l = some i → i < l.length := by
  intro l
  induction l with
  | nil => intro i h; simp [findZero] at h
  | cons b rest ih =>
    intro i h
    simp only [findZero] at h
    by_cases hb : b = 0
    · rw [if_pos hb] at h
      cases h
      simp
    · rw [if_neg hb] at h
      rw [Option.map_eq_some'] at h
      obtain ⟨j, hj, rfl⟩ := h
      have := ih j hj
      simp only [List.length_cons]
      omega

/-- A successful `parseDNSQst` consumes exactly the QNAME length (terminator
included) plus the four QTYPE/QCLASS bytes, and the QNAME is no longer than
the input. -/
theorem parseDNSQst_consumed (msg : List Nat) (qst : DNSMsgQst) (clen : Nat)
    (hsize : msg.length ≤ 512) (hq : parseDNSQst msg = some (qst, clen)) :
    clen = qst.QNAME.length + 4 ∧ qst.QNAME.length ≤ msg.length := by
  unfold parseDNSQst at hq
  split at hq
  · exact absurd hq (by simp)
  next i hfz =>
    have hi := findZero_lt_length msg i hfz
    split at hq
    next qtype qclass hq1 hq2 =>
      simp only [Option.some.injEq, Prod.mk.injEq] at hq
      obtain ⟨hqst, hclen⟩ := hq
      subst hclen
      rw [← hqst]
      simp only [List.length_take]
      omega
    next => exact absurd hq (by simp)

/-- A successful `parseDNSRequest` consumes 12 header bytes plus the
question's consumed length. -/
theorem parseDNSRequest_consumed (msg : List Nat) (hdr : DNSMsgHdr)
    (qst : DNSMsgQst) (total : Nat) (hsize : msg.length ≤ 512)
    (hq : parseDNSRequest msg = some (hdr, qst, total)) :
    ∃ clen, parseDNSQst (msg.drop 12) = some (qst, clen) ∧
      total = 12 + clen := by
  unfold parseDNSRequest at hq
  split at hq
  next hdr' qst' qstLen hh hqd =>
    simp only [Option.some.injEq, Prod.mk.injEq] at hq
    obtain ⟨hhdr, hqst, htotal⟩ := hq
    rw [← hqst]
    have hdrop : (msg.drop 12).length ≤ 512 := by
      simp only [List.length_drop]; omega
    have hc := parseDNSQst_consumed (msg.drop 12) qst' qstLen hdrop hqd
    have hlen500 : (msg.drop 12).length ≤ 500 := by
      simp only [List.length_drop]; omega
    refine ⟨qstLen, hqd, ?_⟩
    subst htotal
    omega
  next => exact absurd hq (by simp)

/-- Claim C8 (amended): for every question section (within the 512-byte
DNS/UDP bound), `parseDNSQst` returns a consumed length equal to the on-wire
name length (terminator included) plus 4, and `parseDNSRequest` returns 12
plus the question's consumed length; on the 12-byte example header followed
by the google.com name bytes and 00 00 00 01 the total consumed length is 28
with queryType = 0 (the example's QTYPE bytes are 00 00) and queryClass = 1. -/
theorem parseConsumedLengths :
    (∀ msg qst clen, msg.length ≤ 512 → parseDNSQst msg = some (qst, clen) →
      clen = qst.QNAME.length + 4) ∧
    (∀ msg hdr qst total, msg.length ≤ 512 →
      parseDNSRequest msg = some (hdr, qst, total) →
      ∃ clen, parseDNSQst (msg.drop 12) = some (qst, clen) ∧
        total = 12 + clen) ∧
    parseDNSRequest exampleRequest =
      some (⟨0x6aec, 0x8180, 1, 1, 0, 0⟩,
            ⟨[6, 103, 111, 111, 103, 108, 101, 3, 99, 111, 109, 0], 0, 1⟩,
            28) :=
  ⟨fun msg qst clen hs hq => (parseDNSQst_consumed msg qst clen hs hq).1,
   parseDNSRequest_consumed, by decide⟩

/-- Witness for claim C8: the consumed-length law applied to the example
question bytes, whose name occupies 12 bytes and which consumes 16 bytes. -/
theorem parseConsumedLengthsWitness :
    (16 : Nat) =
      (DNSMsgQst.QNAME ⟨[6, 103, 111, 111, 103, 108, 101, 3, 99, 111, 109, 0],
        0, 1⟩).length + 4 :=
  parseConsumedLengths.1 (exampleRequest.drop 12)
    ⟨[6, 103, 111, 111, 103, 108, 101, 3, 99, 111, 109, 0], 0, 1⟩ 16
    (by decide) (by decide)

/-- Counterexample for claim C8 as stated: on the example request the parsed
queryType is 0, not 1 — the example's last four question bytes 00 00 00 01
put 0 in QTYPE and 1 in QCLASS. -/
theorem parseDNSRequestExampleQTypeZero :
    (parseDNSRequest exampleRequest).map (fun r => r.2.1.QTYPE) = some 0 ∧
    (0 : Nat) ≠ 1 := by
  decide

/-- Claim C2: when the queried name matches a table entry whose address is
127.0.0.1 or 0.0.0.0, the relay responds with the original header's ID and
section counts, flags replaced by 0x8183, followed by the question, and
nothing after it (no answer record): the response is exactly 16 bytes plus
the QNAME. -/
theorem dnsRelayBlockedResponse (hosts : List (String × String))
    (query upstreamReply : List Nat) (hdr : DNSMsgHdr) (qst : DNSMsgQst)
    (len : Nat) (name ip : String)
    (hparse : parseDNSRequest (udpRead 512 query) = some (hdr, qst, len))
    (hname : parseDomainName qst = some name)
    (hip : getIPAddrByDomainName hosts name = some ip)
    (hblocked : ip = "127.0.0.1" ∨ ip = "0.0.0.0") :
    DNSRelayStep hosts query upstreamReply =
      RelayOutput.respond (composeHdrQst ⟨hdr.ID, 0x8183, hdr.QDCOUNT,
        hdr.ANCOUNT, hdr.NSCOUNT, hdr.ARCOUNT⟩ qst) ∧
    (composeHdrQst ⟨hdr.ID, 0x8183, hdr.QDCOUNT, hdr.ANCOUNT, hdr.NSCOUNT,
      hdr.ARCOUNT⟩ qst).length = 16 + qst.QNAME.length := by
  constructor
  · rcases hblocked with rfl | rfl
    · simp only [DNSRelayStep, hparse, hname, hip, Option.getD_some]
      rw [if_neg (by decide), if_pos (by decide)]
    · simp only [DNSRelayStep, hparse, hname, hip, Option.getD_some]
      rw [if_neg (by decide), if_pos (by decide)]
  · simp only [composeHdrQst, putUint16, List.length_append, List.length_cons,
      List.length_nil]
    omega

/-- Claim C1 (amended): when the queried name matches a table entry whose
address is neither 127.0.0.1 nor 0.0.0.0 (nor empty), the relay responds
with the original header's ID and counts, flags replaced by 0x8180, the
question, and exactly one answer record whose NAME is the fixed pointer
0xC0 0x0C, whose type and class are the fixed constants 1 (A) and 1 (IN) —
not copied from the query — with fixed TTL 31, RDLENGTH 4, and RDATA the
per-octet byte parse of the matched address string. -/
theorem dnsRelayLocalAnswer (hosts : List (String × String))
    (query upstreamReply : List Nat) (hdr : DNSMsgHdr) (qst : DNSMsgQst)
    (len : Nat) (name ip : String)
    (hparse : parseDNSRequest (udpRead 512 query) = some (hdr, qst, len))
    (hname : parseDomainName qst = some name)
    (hip : getIPAddrByDomainName hosts name = some ip)
    (hne : ip ≠ "") (hs1 : ip ≠ "127.0.0.1") (hs2 : ip ≠ "0.0.0.0") :
    DNSRelayStep hosts query upstreamReply =
      RelayOutput.respond (composeHdrQst ⟨hdr.ID, 0x8180, hdr.QDCOUNT,
          hdr.ANCOUNT, hdr.NSCOUNT, hdr.ARCOUNT⟩ qst
        ++ [0xc0, 0x0c] ++ putUint16 1 ++ putUint16 1 ++ putUint32 31
        ++ putUint16 4 ++ (splitDots ip).map parseIntByte) := by
  simp only [DNSRelayStep, hparse, hname, hip, Option.getD_some]
  rw [if_neg hne, if_neg (not_or.mpr ⟨hs1, hs2⟩)]
  simp [composeHdrQstAsr, createDNSMsgAsr]

/-- Claim C3 (amended): on the forward path the query sent upstream carries
transaction ID original+1 mod 2^16, and the final response delivered to the
client carries the upstream reply's ID minus one mod 2^16 — which equals the
original ID exactly when the upstream echoes the forwarded ID, not for every
reply ID. -/
theorem dnsRelayForwardIds (hosts : List (String × String))
    (query upstreamReply : List Nat) (hdr : DNSMsgHdr) (qst : DNSMsgQst)
    (len : Nat) (name : String) (rhdr : DNSMsgHdr) (rqst : DNSMsgQst)
    (rlen : Nat)
    (hparse : parseDNSRequest (udpRead 512 query) = some (hdr, qst, len))
    (hname : parseDomainName qst = some name)
    (hip : getIPAddrByDomainName hosts name = none)
    (hrparse : parseDNSRequest (udpRead 256 upstreamReply) =
      some (rhdr, rqst, rlen))
    (hID : hdr.ID < 65536) (hrID : rhdr.ID < 65536) :
    DNSRelayStep hosts query upstreamReply =
      RelayOutput.forwarded
        (composeHdrQst ⟨(hdr.ID + 1) % 65536, hdr.FLAGS, hdr.QDCOUNT,
          hdr.ANCOUNT, hdr.NSCOUNT, hdr.ARCOUNT⟩ qst)
        (composeHdrQstMultiRR ⟨(rhdr.ID + 65535) % 65536, rhdr.FLAGS,
          rhdr.QDCOUNT, rhdr.ANCOUNT, rhdr.NSCOUNT, rhdr.ARCOUNT⟩ rqst
          ((udpRead 256 upstreamReply).drop rlen)) ∧
    ((rhdr.ID + 65535) % 65536 = hdr.ID ↔ rhdr.ID = (hdr.ID + 1) % 65536) := by
  constructor
  · simp only [DNSRelayStep, hparse, hname, hip, Option.getD_none, if_true]
    simp only [communicateWithForwardDNS, hrparse]
  · constructor
    · intro h; omega
    · intro h; omega

/-- Witness for claim C2: the spec's scenario — name table
("127.0.0.1", "blocked.example"), a query for blocked.example yields flags
0x8183 and no answer record (33 response bytes: header, then the 17-byte
QNAME and 4 question bytes, nothing after). -/
theorem dnsRelayBlockedResponseWitness :
    DNSRelayStep [("127.0.0.1", "blocked.example")] blockedQuery [] =
      RelayOutput.respond (composeHdrQst ⟨0xabcd, 0x8183, 1, 0, 0, 0⟩
        ⟨blockedName, 1, 1⟩) ∧
    (composeHdrQst ⟨0xabcd, 0x8183, 1, 0, 0, 0⟩ ⟨blockedName, 1, 1⟩).length =
      16 + blockedName.length :=
  dnsRelayBlockedResponse [("127.0.0.1", "blocked.example")] blockedQuery []
    ⟨0xabcd, 0x0100, 1, 0, 0, 0⟩ ⟨blockedName, 1, 1⟩ 33
    "blocked.example" "127.0.0.1"
    (by decide) (by decide) (by decide) (Or.inl rfl)

/-- Witness for claim C1: the spec's scenario — name table
("192.168.10.1", "www.ljg.top"), a type-A query for www.ljg.top yields
flags 0x8180 and an answer whose RDATA is [192, 168, 10, 1]. -/
theorem dnsRelayLocalAnswerWitness :
    DNSRelayStep [("192.168.10.1", "www.ljg.top")] ljgQuery [] =
      RelayOutput.respond (composeHdrQst ⟨0x1234, 0x8180, 1, 0, 0, 0⟩
          ⟨ljgName, 1, 1⟩
        ++ [0xc0, 0x0c] ++ putUint16 1 ++ putUint16 1 ++ putUint32 31
        ++ putUint16 4 ++ (splitDots "192.168.10.1").map parseIntByte) ∧
    (splitDots "192.168.10.1").map parseIntByte = [192, 168, 10, 1] :=
  ⟨dnsRelayLocalAnswer [("192.168.10.1", "www.ljg.top")] ljgQuery []
      ⟨0x1234, 0x0100, 1, 0, 0, 0⟩ ⟨ljgName, 1, 1⟩ 29
      "www.ljg.top" "192.168.10.1"
      (by decide) (by decide) (by decide) (by decide) (by decide) (by decide),
   by decide⟩

/-- Counterexample for claim C1 as stated: a matching query of type 28
(AAAA) is answered with a record whose TYPE field (bytes 31-32 of the
response, decoding to 1) differs from the query's type 28 — the answer
type/class are not copied from the query. -/
theorem dnsRelayLocalAnswerTypeNotCopied :
    (respondBytes (DNSRelayStep [("192.168.10.1", "www.ljg.top")]
        ljgQuery28 [])).map (fun r => getBeUint16 r 31) = some (some 1) ∧
    getBeUint16 ljgQuery28 25 = some 28 ∧ (1 : Nat) ≠ 28 := by
  decide

/-- Witness for claim C3: forwarding the example request (absent from an
empty name table) with an upstream reply that echoes the forwarded ID
0x6aed; the relay sends ID 0x6aed upstream and delivers ID 0x6aec back. -/
theorem dnsRelayForwardIdsWitness :
    DNSRelayStep [] exampleRequest ([0x6a, 0xed] ++ exampleRequest.drop 2) =
      RelayOutput.forwarded
        (composeHdrQst ⟨(0x6aec + 1) % 65536, 0x8180, 1, 1, 0, 0⟩
          ⟨[6, 103, 111, 111, 103, 108, 101, 3, 99, 111, 109, 0], 0, 1⟩)
        (composeHdrQstMultiRR ⟨(0x6aed + 65535) % 65536, 0x8180, 1, 1, 0, 0⟩
          ⟨[6, 103, 111, 111, 103, 108, 101, 3, 99, 111, 109, 0], 0, 1⟩
          ((udpRead 256 ([0x6a, 0xed] ++ exampleRequest.drop 2)).drop 28)) ∧
    ((0x6aed + 65535) % 65536 = 0x6aec ↔
      (0x6aed : Nat) = (0x6aec + 1) % 65536) :=
  dnsRelayForwardIds [] exampleRequest ([0x6a, 0xed] ++ exampleRequest.drop 2)
    ⟨0x6aec, 0x8180, 1, 1, 0, 0⟩
    ⟨[6, 103, 111, 111, 103, 108, 101, 3, 99, 111, 109, 0], 0, 1⟩ 28
    "google.com" ⟨0x6aed, 0x8180, 1, 1, 0, 0⟩
    ⟨[6, 103, 111, 111, 103, 108, 101, 3, 99, 111, 109, 0], 0, 1⟩ 28
    (by decide) (by decide) (by decide) (by decide) (by decide) (by decide)

/-- Counterexample for claim C3 as stated: if the upstream reply carries ID
0x0064 instead of echoing the forwarded ID, the response delivered to the
client starts with ID 0x0063, not the original 0x6aec — the original ID is
not restored for every reply ID. -/
theorem dnsRelayForwardIdNotRestored :
    (forwardedResp (DNSRelayStep [] exampleRequest
        ([0x00, 0x64] ++ exampleRequest.drop 2))).map
        (fun r => getBeUint16 r 0) = some (some 0x63) ∧
    getBeUint16 exampleRequest 0 = some 0x6aec ∧ (0x63 : Nat) ≠ 0x6aec := by
  decide
